import Mathlib

/-!
Verification of the multi-provider fetch-and-enrich pipeline in
`streamlit_app.py` against its natural-language specification.

The Python source is shallowly embedded: every network interaction is
abstracted by an oracle value (`HttpAttempt`) describing what the HTTP
layer would have produced on a given attempt, and the control flow of
each Python function is translated line by line into a Lean function
over those oracles.  Machine-level effects (network call counts,
`time.sleep` delays, the `st.cache_data` memoization state) are made
explicit in the return types.
-/

namespace StreamlitApp

/-- JSON values, as produced by `response.json()`. -/
inductive Json where
  | null : Json
  | bool (b : Bool) : Json
  | num (n : Int) : Json
  | str (s : String) : Json
  | arr (xs : List Json) : Json
  | obj (fields : List (String × Json)) : Json

/-- Python exceptions that can escape the functions we model
(only the kinds the code can actually raise uncaught). -/
inductive PyExn where
  | keyError : PyExn     -- `d[k]` on a dict without key `k`
  | indexError : PyExn   -- `l[i]` on a list with `i` out of range
  | typeError : PyExn    -- subscripting a non-dict/non-list value
deriving DecidableEq

/-- What the HTTP layer does on one outbound request: either a response
with a status code and a body (`none` = body that is not valid JSON),
or a timeout / connection failure before any response arrives. -/
inductive HttpAttempt where
  | response (status : Nat) (body : Option Json) : HttpAttempt
  | timeout : HttpAttempt
  | connectionError : HttpAttempt

/-- Result of one `requests.get/post` + `raise_for_status()` + `.json()`
sequence inside a `try: ... except requests.RequestException:` block:
either the parsed payload is returned, or a `requests.RequestException`
is raised — 4xx/5xx status, timeout, connection error, or a body that
fails to parse as JSON — all caught by the handler. -/
inductive AttemptStep where
  | payload (p : Json) : AttemptStep
  | requestException : AttemptStep

/-- `raise_for_status()` raises `requests.HTTPError` exactly when the
status code is 400 or above; otherwise `.json()` either parses the body
or raises `requests.exceptions.JSONDecodeError` (requests ≥ 2.27),
which subclasses `requests.RequestException` and is therefore caught by
the same handler as the network failures. -/
def stepOf : HttpAttempt → AttemptStep
  | .response status body =>
    if 400 ≤ status then .requestException
    else match body with
      | some p => .payload p
      | none => .requestException
  | .timeout => .requestException
  | .connectionError => .requestException

/-- A request whose failure the spec classifies as transient: timeout,
connection error, or a 5xx server error status. -/
def transientAttempt : HttpAttempt → Bool
  | .timeout => true
  | .connectionError => true
  | .response s _ => 500 ≤ s

/-- A request whose failure the spec classifies as permanent: a 4xx
authentication/validation error status. -/
def permanentAttempt : HttpAttempt → Bool
  | .response s _ => 400 ≤ s && s < 500
  | _ => false

/-- Observable outcome of one call of the (uncached) body of
`get_jina_search_results`: the value returned (or the exception that
escaped), how many network requests were issued, and the list of
`time.sleep` delays performed, in order. -/
structure FetchResult where
  result : Except PyExn (Option Json)
  calls : Nat
  sleeps : List Nat

/-- The `for attempt in range(max_retries)` loop of
`get_jina_search_results`, lines 48–58, with `fuel` the number of loop
iterations still to run (`max_retries - attempt`).  On a successful
response the parsed JSON is returned; on a `requests.RequestException`
the code sleeps `delay` seconds and retries while `attempt <
max_retries - 1` (i.e. while at least one more iteration remains),
otherwise logs the error, lets the loop end and returns `None`. -/
def jinaGo (oracle : Nat → HttpAttempt) (delay attempt : Nat) : Nat → FetchResult
  | 0 => ⟨.ok none, 0, []⟩
  | fuel + 1 =>
    match stepOf (oracle attempt) with
    | .payload p => ⟨.ok (some p), 1, []⟩
    | .requestException =>
      match fuel with
      | 0 => ⟨.ok none, 1, []⟩
      | fuel' + 1 =>
        let r := jinaGo oracle delay (attempt + 1) (fuel' + 1)
        ⟨r.result, r.calls + 1, delay :: r.sleeps⟩

/-- Body of `get_jina_search_results(query, jina_api_key, max_retries=3,
delay=5)` before the `@st.cache_data` wrapper is applied.  `oracle i`
is what the network does on the `i`-th request for this argument
tuple. -/
def get_jina_search_results_body (oracle : Nat → HttpAttempt)
    (maxRetries delay : Nat) : FetchResult :=
  jinaGo oracle delay 0 maxRetries

/-- State of the `st.cache_data` result cache: one entry per argument
fingerprint, holding the cached return value and the time it was
stored.  `st.cache_data` caches whatever value the body returns —
including `None` — but caches nothing when the body raises. -/
structure CacheState where
  entries : List (String × Option Json × Nat)

/-- A live cache entry for `fp` at time `now`: stored less than `ttl`
seconds ago. -/
def lookupLive (ttl now : Nat) (fp : String) (st : CacheState) :
    Option (Option Json) :=
  (st.entries.find? (fun e => e.1 == fp && now < e.2.2 + ttl)).map (fun e => e.2.1)

/-- Observable outcome of one call of a `@st.cache_data`-wrapped
function: the value returned (or exception raised), the number of
network requests issued, and the cache state afterwards. -/
structure CachedCall where
  response : Except PyExn (Option Json)
  calls : Nat
  state : CacheState

/-- The `@st.cache_data(ttl=3600)` wrapper: on a live hit for the
argument fingerprint `fp` it returns the stored value without running
the body (zero network calls); on a miss it runs the body and stores
whatever the body returned — success or `None` alike — with the current
time; an exception from the body is propagated and not cached. -/
def cached_fetch (ttl : Nat) (fp : String) (body : FetchResult)
    (st : CacheState) (now : Nat) : CachedCall :=
  match lookupLive ttl now fp st with
  | some v => ⟨.ok v, 0, st⟩
  | none =>
    match body.result with
    | .ok v => ⟨.ok v, body.calls, ⟨(fp, v, now) :: st.entries⟩⟩
    | .error e => ⟨.error e, body.calls, st⟩

/-- `get_jina_search_results` as callers see it: the retry loop body
wrapped in `@st.cache_data(ttl=3600)`.  `fp` is the fingerprint of the
argument tuple `(query, jina_api_key, max_retries, delay)`; `st` and
`now` are the cache state and clock at call time. -/
def get_jina_search_results (oracle : Nat → HttpAttempt) (fp : String)
    (maxRetries delay ttl now : Nat) (st : CacheState) : CachedCall :=
  cached_fetch ttl fp (get_jina_search_results_body oracle maxRetries delay) st now

/-- Python `d[k]` on a parsed-JSON value: a dict looks the key up and
raises `KeyError` when absent; any non-dict value raises `TypeError`
when subscripted with a string. -/
def jsonIndex (j : Json) (k : String) : Except PyExn Json :=
  match j with
  | .obj fields =>
    match fields.lookup k with
    | some v => .ok v
    | none => .error .keyError
  | _ => .error .typeError

/-- Python `l[i]` on a parsed-JSON value: a list indexes and raises
`IndexError` when out of range; any non-list value raises `TypeError`
when subscripted with an integer. -/
def jsonAt (j : Json) (i : Nat) : Except PyExn Json :=
  match j with
  | .arr xs =>
    match xs.get? i with
    | some v => .ok v
    | none => .error .indexError
  | _ => .error .typeError

/-- The chained subscript `response.json()['choices'][0]['message']['content']`
of `process_with_openrouter`, line 131. -/
def extractContent (p : Json) : Except PyExn Json :=
  (((jsonIndex p "choices").bind (fun c => jsonAt c 0)).bind
    (fun x => jsonIndex x "message")).bind (fun m => jsonIndex m "content")

/-- `process_with_openrouter(prompt, context, openrouter_api_key)`,
lines 113–134: one POST to the completion endpoint inside
`try: ... except requests.RequestException:`; on success the content is
extracted by chained subscripts whose `KeyError`/`IndexError`/`TypeError`
is NOT caught by the handler; on a caught `RequestException` the error
is logged and `None` is returned. -/
def process_with_openrouter (a : HttpAttempt) : Except PyExn (Option Json) :=
  match stepOf a with
  | .requestException => .ok none
  | .payload p =>
    match extractContent p with
    | .ok v => .ok (some v)
    | .error e => .error e

/-- `get_linkedin_company_data(company_url, rapidapi_key)`, lines 76–90:
one POST inside `try: ... except requests.RequestException:`; the parsed
JSON is returned on success, `None` after a caught `RequestException`. -/
def get_linkedin_company_data (a : HttpAttempt) : Except PyExn (Option Json) :=
  match stepOf a with
  | .payload p => .ok (some p)
  | .requestException => .ok none

/-- `get_linkedin_company_posts(company_url, rapidapi_key)`, lines
92–111: same shape as `get_linkedin_company_data` against the
`company_updates` endpoint. -/
def get_linkedin_company_posts (a : HttpAttempt) : Except PyExn (Option Json) :=
  match stepOf a with
  | .payload p => .ok (some p)
  | .requestException => .ok none

/-- `get_exa_search_results(url, exa_api_key)`, lines 60–74: when the
`exa_py` import failed at startup (`exa_available = False`) it returns
`None` before any client is built — zero network calls; otherwise it
issues one call whose failures are all swallowed by the bare
`except Exception:` handler, returning `None`.  The second component is
the number of network calls issued. -/
def get_exa_search_results (exaAvailable : Bool) (a : HttpAttempt) :
    Option Json × Nat :=
  if exaAvailable then
    match stepOf a with
    | .payload p => (some p, 1)
    | _ => (none, 1)
  else (none, 0)

/-- `login(username, password)`, lines 32–36, over the `[users]` table
of `secrets.toml` (a mapping with unique keys, modelled as an
association list): `username in users and users[username] == password`. -/
def login (users : List (String × String)) (username password : String) : Bool :=
  match users.lookup username with
  | some stored => stored == password
  | none => false

/-- The API keys dict built by `load_api_keys`, lines 19–24. -/
structure ApiKeys where
  jina : String
  openrouter : String
  exa : Option String
  rapidapi : String

/-- The message `st.error` shows when key `k` is missing: Python's
`str(KeyError('k'))` is `'k'` with the quotes, interpolated into
`f"{str(e)} API key not found in secrets.toml. Please add it."`. -/
def key_error_msg (k : String) : String :=
  "'" ++ k ++ "' API key not found in secrets.toml. Please add it."

/-- `load_api_keys()`, lines 17–27, over the `[secrets]` table of
`secrets.toml`.  The dict literal evaluates its entries in order
(`jina`, `openrouter`, `exa` — looked up only when `exa_available` —
then `rapidapi`); the first missing key raises `KeyError`, which is
caught, reported via `st.error`, and turned into a `None` return.
The second component is the error message shown, if any. -/
def load_api_keys (exaAvailable : Bool) (tbl : List (String × String)) :
    Option ApiKeys × Option String :=
  match tbl.lookup "jina_api_key" with
  | none => (none, some (key_error_msg "jina_api_key"))
  | some jina =>
    match tbl.lookup "openrouter_api_key" with
    | none => (none, some (key_error_msg "openrouter_api_key"))
    | some openrouter =>
      if exaAvailable then
        match tbl.lookup "exa_api_key" with
        | none => (none, some (key_error_msg "exa_api_key"))
        | some exa =>
          match tbl.lookup "rapidapi_key" with
          | none => (none, some (key_error_msg "rapidapi_key"))
          | some rapidapi => (some ⟨jina, openrouter, some exa, rapidapi⟩, none)
      else
        match tbl.lookup "rapidapi_key" with
        | none => (none, some (key_error_msg "rapidapi_key"))
        | some rapidapi => (some ⟨jina, openrouter, none, rapidapi⟩, none)

/-- The provider keys the dict literal of `load_api_keys` requires, in
evaluation order (`exa_api_key` only when the library imported). -/
def requiredKeys (exaAvailable : Bool) : List String :=
  if exaAvailable then
    ["jina_api_key", "openrouter_api_key", "exa_api_key", "rapidapi_key"]
  else
    ["jina_api_key", "openrouter_api_key", "rapidapi_key"]

mutual

/-- Python `repr` of a parsed-JSON value, used by `str` on containers. -/
def pyRepr : Json → String
  | .null => "None"
  | .bool b => cond b "True" "False"
  | .num n => toString n
  | .str s => "'" ++ s ++ "'"
  | .arr xs => "[" ++ pyReprList xs ++ "]"
  | .obj fields => "\x7b" ++ pyReprFields fields ++ "\x7d"

/-- Comma-separated `repr`s of the elements of a Python list. -/
def pyReprList : List Json → String
  | [] => ""
  | [x] => pyRepr x
  | x :: y :: xs => pyRepr x ++ ", " ++ pyReprList (y :: xs)

/-- Comma-separated `repr`s of the entries of a Python dict. -/
def pyReprFields : List (String × Json) → String
  | [] => ""
  | [(k, v)] => "'" ++ k ++ "': " ++ pyRepr v
  | (k, v) :: f :: fs => "'" ++ k ++ "': " ++ pyRepr v ++ ", " ++ pyReprFields (f :: fs)

end

/-- Python `str` of a parsed-JSON value, as an f-string interpolates
it: a `str` value interpolates as itself, containers and scalars as
their `repr`-style rendering. -/
def pyStrJson : Json → String
  | .str s => s
  | j => pyRepr j

/-- Python `str` of an analysis-stage result as the report f-string
interpolates it: `None` renders as the four characters `"None"`. -/
def pyStrOpt : Option Json → String
  | none => "None"
  | some j => pyStrJson j

/-- The `full_report` f-string of `main_app`, lines 274–295, with each
analysis result interpolated via Python `str`. -/
def compile_report (executiveSummary companyInfo competitorAnalysis
    profileAnalysis postsAnalysis : Option Json) : String :=
  "# Comprehensive Company Analysis\n\n## Executive Summary\n\n" ++
    pyStrOpt executiveSummary ++
  "\n\n## Detailed Company Information\n\n" ++ pyStrOpt companyInfo ++
  "\n\n## Competitor Analysis\n\n" ++ pyStrOpt competitorAnalysis ++
  "\n\n## LinkedIn Profile Analysis\n\n" ++ pyStrOpt profileAnalysis ++
  "\n\n## LinkedIn Posts Analysis\n\n" ++ pyStrOpt postsAnalysis ++ "\n"

/-- The network behavior feeding one run of the analyze-company branch
of `main_app`: one oracle for the jina retry loop, and one attempt
outcome for each single-shot provider call (exa, the two LinkedIn
endpoints, and the five completion calls, in execution order). -/
structure MainInputs where
  jinaOracle : Nat → HttpAttempt
  exaAttempt : HttpAttempt
  liDataAttempt : HttpAttempt
  liPostsAttempt : HttpAttempt
  companyInfoAttempt : HttpAttempt
  competitorAttempt : HttpAttempt
  profileAttempt : HttpAttempt
  postsAnalysisAttempt : HttpAttempt
  execSummaryAttempt : HttpAttempt

/-- Observable outcome of one run of `main_app` with the button
pressed and both URLs non-empty: how many outbound network requests
were issued, the `st.error` messages shown, and either the compiled
`full_report` (`some`), an early return with no report (`none`), or an
uncaught Python exception (`Except.error`). -/
structure AppRun where
  networkCalls : Nat
  errors : List String
  result : Except PyExn (Option String)

/-- `main_app()`, lines 219–298, for one analyze-company run (button
pressed, both URLs filled in, empty session cache): `load_api_keys` is
called first and a `None` return aborts the run before any network
activity; otherwise the four fetches run, then the four stage analyses
and the executive summary via `process_with_openrouter`, and the
`full_report` f-string is compiled.  An uncaught exception anywhere
stops the run at that point. -/
def main_app (exaAvailable : Bool) (tbl : List (String × String))
    (inp : MainInputs) : AppRun :=
  match load_api_keys exaAvailable tbl with
  | (none, msg) => ⟨0, msg.toList, .ok none⟩
  | (some _, _) =>
    let jina := get_jina_search_results_body inp.jinaOracle 3 5
    match jina.result with
    | .error e => ⟨jina.calls, [], .error e⟩
    | .ok _jinaResults =>
      let exa := get_exa_search_results exaAvailable inp.exaAttempt
      match get_linkedin_company_data inp.liDataAttempt with
      | .error e => ⟨jina.calls + exa.2 + 1, [], .error e⟩
      | .ok _liData =>
        match get_linkedin_company_posts inp.liPostsAttempt with
        | .error e => ⟨jina.calls + exa.2 + 2, [], .error e⟩
        | .ok _liPosts =>
          match process_with_openrouter inp.companyInfoAttempt with
          | .error e => ⟨jina.calls + exa.2 + 3, [], .error e⟩
          | .ok companyInfo =>
            match process_with_openrouter inp.competitorAttempt with
            | .error e => ⟨jina.calls + exa.2 + 4, [], .error e⟩
            | .ok competitorAnalysis =>
              match process_with_openrouter inp.profileAttempt with
              | .error e => ⟨jina.calls + exa.2 + 5, [], .error e⟩
              | .ok profileAnalysis =>
                match process_with_openrouter inp.postsAnalysisAttempt with
                | .error e => ⟨jina.calls + exa.2 + 6, [], .error e⟩
                | .ok postsAnalysis =>
                  match process_with_openrouter inp.execSummaryAttempt with
                  | .error e => ⟨jina.calls + exa.2 + 7, [], .error e⟩
                  | .ok executiveSummary =>
                    ⟨jina.calls + exa.2 + 7, [],
                      .ok (some (compile_report executiveSummary companyInfo
                        competitorAnalysis profileAnalysis postsAnalysis))⟩

/-- The standard base64 alphabet: character of the sextet `n < 64`. -/
def b64Char (n : Nat) : Char :=
  if n < 26 then Char.ofNat (65 + n)
  else if n < 52 then Char.ofNat (97 + (n - 26))
  else if n < 62 then Char.ofNat (48 + (n - 52))
  else if n = 62 then '+'
  else '/'

/-- Inverse of the base64 alphabet: sextet of a character, `none` for a
character outside the alphabet (including the `'='` pad). -/
def b64Index (c : Char) : Option Nat :=
  if 'A' ≤ c ∧ c ≤ 'Z' then some (c.toNat - 65)
  else if 'a' ≤ c ∧ c ≤ 'z' then some (c.toNat - 97 + 26)
  else if '0' ≤ c ∧ c ≤ '9' then some (c.toNat - 48 + 52)
  else if c = '+' then some 62
  else if c = '/' then some 63
  else none

/-- `base64.b64encode` over a byte sequence (bytes as `Nat < 256`):
each 3-byte group becomes 4 alphabet characters; a trailing group of 1
or 2 bytes is padded with `'='`. -/
def b64encode : List Nat → List Char
  | [] => []
  | [b1] => [b64Char (b1 / 4), b64Char (b1 % 4 * 16), '=', '=']
  | [b1, b2] =>
    [b64Char (b1 / 4), b64Char (b1 % 4 * 16 + b2 / 16), b64Char (b2 % 16 * 4), '=']
  | b1 :: b2 :: b3 :: rest =>
    b64Char (b1 / 4) :: b64Char (b1 % 4 * 16 + b2 / 16) ::
      b64Char (b2 % 16 * 4 + b3 / 64) :: b64Char (b3 % 64) :: b64encode rest

/-- `base64.b64decode` over properly padded input: groups of 4
characters are decoded to 3 bytes, a final `"xx=="` group to 1 byte and
a final `"xxx="` group to 2 bytes; anything else (wrong length, pad in
the middle, character outside the alphabet) is rejected. -/
def b64decode : List Char → Option (List Nat)
  | [] => some []
  | c1 :: c2 :: c3 :: c4 :: rest =>
    match b64Index c1, b64Index c2 with
    | some s1, some s2 =>
      if c3 = '=' then
        if c4 = '=' ∧ rest = [] then some [s1 * 4 + s2 / 16] else none
      else
        match b64Index c3 with
        | some s3 =>
          if c4 = '=' then
            if rest = [] then some [s1 * 4 + s2 / 16, s2 % 16 * 16 + s3 / 4]
            else none
          else
            match b64Index c4 with
            | some s4 =>
              (b64decode rest).map (fun bs =>
                (s1 * 4 + s2 / 16) :: (s2 % 16 * 16 + s3 / 4) :: (s3 % 4 * 64 + s4) :: bs)
            | none => none
        | none => none
    | _, _ => none
  | _ => none

/-- Python `content.encode()`: the UTF-8 bytes of a string, as `Nat`s. -/
def utf8Bytes (s : String) : List Nat :=
  s.toUTF8.toList.map (fun b => b.toNat)

/-- `get_download_link(content, filename, text)`, lines 215–217: the
anchor tag embedding `base64.b64encode(content.encode()).decode()` as
the data payload. -/
def get_download_link (content filename text : String) : String :=
  "<a href=\"data:file/txt;base64," ++ String.mk (b64encode (utf8Bytes content)) ++
    "\" download=\"" ++ filename ++ "\">" ++ text ++ "</a>"

/-- A well-formed OpenRouter completion payload whose extracted content
is the string `s`. -/
def sampleCompletion (s : String) : Json :=
  Json.obj [("choices", Json.arr [Json.obj [("message",
    Json.obj [("content", Json.str s)])]])]

/-- A `[secrets]` table holding every key required when `exa_py` is not
installed. -/
def fullSecrets : List (String × String) :=
  [("jina_api_key", "j"), ("openrouter_api_key", "o"), ("rapidapi_key", "r")]

/-- Network behavior where every outbound request times out. -/
def allTimeoutInputs : MainInputs :=
  ⟨fun _ => .timeout, .timeout, .timeout, .timeout, .timeout, .timeout,
    .timeout, .timeout, .timeout⟩

/-- Network behavior where every provider call succeeds and every
completion call returns a well-formed payload. -/
def happyInputs : MainInputs where
  jinaOracle := fun _ => .response 200 (some Json.null)
  exaAttempt := .response 200 (some Json.null)
  liDataAttempt := .response 200 (some Json.null)
  liPostsAttempt := .response 200 (some Json.null)
  companyInfoAttempt := .response 200 (some (sampleCompletion "ci"))
  competitorAttempt := .response 200 (some (sampleCompletion "ca"))
  profileAttempt := .response 200 (some (sampleCompletion "pa"))
  postsAnalysisAttempt := .response 200 (some (sampleCompletion "po"))
  execSummaryAttempt := .response 200 (some (sampleCompletion "es"))

/-- Like `happyInputs`, but the company-info completion call times
out. -/
def ciFailInputs : MainInputs :=
  { happyInputs with companyInfoAttempt := .timeout }

end StreamlitApp

namespace StreamlitApp

/-- A transiently-classified attempt raises `requests.RequestException`,
which the retry loop's handler catches. -/
theorem stepOf_of_transient (a : HttpAttempt) (h : transientAttempt a = true) :
    stepOf a = .requestException := by
  cases a with
  | response s b =>
    simp only [transientAttempt, decide_eq_true_eq] at h
    simp only [stepOf]
    rw [if_pos (by omega)]
  | timeout => rfl
  | connectionError => rfl

/-- A permanently-classified attempt (4xx) also raises
`requests.RequestException`, caught by the same handler. -/
theorem stepOf_of_permanent (a : HttpAttempt) (h : permanentAttempt a = true) :
    stepOf a = .requestException := by
  cases a with
  | response s b =>
    simp only [permanentAttempt, Bool.and_eq_true, decide_eq_true_eq] at h
    simp only [stepOf]
    rw [if_pos (by omega)]
  | timeout => simp [permanentAttempt] at h
  | connectionError => simp [permanentAttempt] at h

/-- Claim C3: when every attempt fails transiently (timeout, 5xx,
connection error) and `max_retries = 3`, the retry loop of
`get_jina_search_results` issues exactly 3 network requests, sleeps the
fixed `delay` between consecutive attempts and not after the last, and
then returns `None` (the Failure value). -/
theorem jina_transient_three_attempts (oracle : Nat → HttpAttempt) (delay : Nat)
    (h : ∀ i, i < 3 → transientAttempt (oracle i) = true) :
    get_jina_search_results_body oracle 3 delay =
      ⟨.ok none, 3, [delay, delay]⟩ := by
  have h0 := stepOf_of_transient _ (h 0 (by omega))
  have h1 := stepOf_of_transient _ (h 1 (by omega))
  have h2 := stepOf_of_transient _ (h 2 (by omega))
  show jinaGo oracle delay 0 3 = _
  rw [show (3 : Nat) = 2 + 1 from rfl, jinaGo, h0]
  rw [show (2 : Nat) = 1 + 1 from rfl, jinaGo, h1]
  rw [show (1 : Nat) = 0 + 1 from rfl, jinaGo, h2]

/-- Witness for claim C3: all three attempts time out. -/
theorem jina_transient_three_attempts_witness :
    get_jina_search_results_body (fun _ => .timeout) 3 5 =
      ⟨.ok none, 3, [5, 5]⟩ :=
  jina_transient_three_attempts (fun _ => .timeout) 5 (fun _ _ => rfl)

/-- Claim C2, counterexample: a permanent 401 authentication error is
classified `permanentAttempt`, yet the retry loop still issues 3
network requests and sleeps twice — it does not return after a single
invocation with no delay, because `except requests.RequestException`
treats 4xx exactly like transient failures. -/
theorem jina_permanent_retried_counterexample :
    permanentAttempt (.response 401 none) = true ∧
    (get_jina_search_results_body (fun _ => .response 401 none) 3 5).calls = 3 ∧
    (get_jina_search_results_body (fun _ => .response 401 none) 3 5).sleeps = [5, 5] :=
  ⟨rfl, rfl, rfl⟩

/-- Claim C2 as amended: the code draws no distinction between
permanent and transient failures — when every attempt fails with a 4xx
authentication/validation error, the operation is still invoked
`max_retries = 3` times with the fixed delay between consecutive
attempts, before `None` is returned. -/
theorem jina_permanent_three_attempts (oracle : Nat → HttpAttempt) (delay : Nat)
    (h : ∀ i, i < 3 → permanentAttempt (oracle i) = true) :
    get_jina_search_results_body oracle 3 delay =
      ⟨.ok none, 3, [delay, delay]⟩ := by
  have h0 := stepOf_of_permanent _ (h 0 (by omega))
  have h1 := stepOf_of_permanent _ (h 1 (by omega))
  have h2 := stepOf_of_permanent _ (h 2 (by omega))
  show jinaGo oracle delay 0 3 = _
  rw [show (3 : Nat) = 2 + 1 from rfl, jinaGo, h0]
  rw [show (2 : Nat) = 1 + 1 from rfl, jinaGo, h1]
  rw [show (1 : Nat) = 0 + 1 from rfl, jinaGo, h2]

/-- Witness for amended claim C2: every attempt is a 401. -/
theorem jina_permanent_three_attempts_witness :
    get_jina_search_results_body (fun _ => .response 401 none) 3 5 =
      ⟨.ok none, 3, [5, 5]⟩ :=
  jina_permanent_three_attempts (fun _ => .response 401 none) 5 (fun _ _ => rfl)

/-- Claim C10: `login` returns `True` exactly when the username is a
key of the configured users mapping and the stored value equals the
supplied password; it is a pure read of the mapping. -/
theorem login_exact (users : List (String × String)) (u p : String) :
    login users u p = true ↔ users.lookup u = some p := by
  cases h : users.lookup u with
  | none => simp [login, h]
  | some stored => simp [login, h, beq_iff_eq]

/-- Claim C1, evaluation at the failing input: when every attempt times
out, the first call returns the Failure value `None` after 3 fetches,
`st.cache_data` stores that `None`, and a second call with the same
fingerprint 100 seconds later returns the cached `None` with ZERO fetch
invocations — failure responses ARE stored in the result cache,
contrary to the spec's fixed policy. -/
theorem jina_failure_is_cached :
    (get_jina_search_results (fun _ => .timeout) "fp" 3 5 3600 0 ⟨[]⟩).response =
      .ok none ∧
    (get_jina_search_results (fun _ => .timeout) "fp" 3 5 3600 0 ⟨[]⟩).calls = 3 ∧
    (get_jina_search_results (fun _ => .timeout) "fp" 3 5 3600 100
      (get_jina_search_results (fun _ => .timeout) "fp" 3 5 3600 0 ⟨[]⟩).state).response =
      .ok none ∧
    (get_jina_search_results (fun _ => .timeout) "fp" 3 5 3600 100
      (get_jina_search_results (fun _ => .timeout) "fp" 3 5 3600 0 ⟨[]⟩).state).calls = 0 :=
  ⟨rfl, rfl, rfl, rfl⟩

/-- Claim C5: when the first call's fetch succeeds on its first attempt
and a second call with the same fingerprint happens within the one-hour
TTL, the second call issues zero network requests and returns the
identical response the first call returned. -/
theorem cache_hit_no_network (oracle oracle2 : Nat → HttpAttempt) (p : Json)
    (fp : String) (d t0 t1 : Nat)
    (h0 : stepOf (oracle 0) = .payload p) (ht : t1 < t0 + 3600) :
    (get_jina_search_results oracle fp 3 d 3600 t0 ⟨[]⟩).response = .ok (some p) ∧
    (get_jina_search_results oracle2 fp 3 d 3600 t1
      (get_jina_search_results oracle fp 3 d 3600 t0 ⟨[]⟩).state).calls = 0 ∧
    (get_jina_search_results oracle2 fp 3 d 3600 t1
      (get_jina_search_results oracle fp 3 d 3600 t0 ⟨[]⟩).state).response =
      (get_jina_search_results oracle fp 3 d 3600 t0 ⟨[]⟩).response := by
  have ebody : get_jina_search_results_body oracle 3 d = ⟨.ok (some p), 1, []⟩ := by
    show jinaGo oracle d 0 3 = _
    rw [show (3 : Nat) = 2 + 1 from rfl, jinaGo, h0]
  have e1 : get_jina_search_results oracle fp 3 d 3600 t0 ⟨[]⟩ =
      ⟨.ok (some p), 1, ⟨[(fp, some p, t0)]⟩⟩ := by
    simp [get_jina_search_results, cached_fetch, lookupLive, ebody]
  have e2 : get_jina_search_results oracle2 fp 3 d 3600 t1 ⟨[(fp, some p, t0)]⟩ =
      ⟨.ok (some p), 0, ⟨[(fp, some p, t0)]⟩⟩ := by
    simp [get_jina_search_results, cached_fetch, lookupLive, List.find?, ht]
  rw [e1, e2]
  exact ⟨rfl, rfl, rfl⟩

/-- Witness for claim C5: a 200 response with a null body at time 0,
re-requested at time 10. -/
theorem cache_hit_no_network_witness :
    (get_jina_search_results (fun _ => .response 200 (some .null)) "q" 3 5 3600 0
      ⟨[]⟩).response = .ok (some .null) ∧
    (get_jina_search_results (fun _ => .timeout) "q" 3 5 3600 10
      (get_jina_search_results (fun _ => .response 200 (some .null)) "q" 3 5 3600 0
        ⟨[]⟩).state).calls = 0 ∧
    (get_jina_search_results (fun _ => .timeout) "q" 3 5 3600 10
      (get_jina_search_results (fun _ => .response 200 (some .null)) "q" 3 5 3600 0
        ⟨[]⟩).state).response =
      (get_jina_search_results (fun _ => .response 200 (some .null)) "q" 3 5 3600 0
        ⟨[]⟩).response :=
  cache_hit_no_network (fun _ => .response 200 (some .null)) (fun _ => .timeout)
    .null "q" 5 0 10 rfl (by omega)

/-- Claim C4, counterexample: when the completion call times out, the
stage output is the absent value `None`, not the sentinel text
"analysis unavailable". -/
theorem completion_failure_not_sentinel :
    process_with_openrouter .timeout = .ok none ∧
    process_with_openrouter .timeout ≠
      .ok (some (Json.str "analysis unavailable")) := by
  refine ⟨rfl, ?_⟩
  intro hcontra
  simp [process_with_openrouter, stepOf] at hcontra

/-- Claim C4 as amended: when one stage's completion call fails with a
caught `RequestException`, that stage's output is `None` — rendered as
the four-character string "None" in the compiled report — while the
pipeline is not aborted and every other section of the report keeps its
content unchanged. -/
theorem stage_failure_yields_none (exaA : Bool) (tbl : List (String × String))
    (inp : MainInputs) (ks : ApiKeys) (km : Option String)
    (pj pd pp qCA vCA qPA vPA qPO vPO qES vES : Json)
    (hk : load_api_keys exaA tbl = (some ks, km))
    (hj : stepOf (inp.jinaOracle 0) = .payload pj)
    (hd : stepOf inp.liDataAttempt = .payload pd)
    (hp : stepOf inp.liPostsAttempt = .payload pp)
    (hci : stepOf inp.companyInfoAttempt = .requestException)
    (hca : stepOf inp.competitorAttempt = .payload qCA)
    (eca : extractContent qCA = .ok vCA)
    (hpa : stepOf inp.profileAttempt = .payload qPA)
    (epa : extractContent qPA = .ok vPA)
    (hpo : stepOf inp.postsAnalysisAttempt = .payload qPO)
    (epo : extractContent qPO = .ok vPO)
    (hes : stepOf inp.execSummaryAttempt = .payload qES)
    (ees : extractContent qES = .ok vES) :
    (main_app exaA tbl inp).errors = [] ∧
    (main_app exaA tbl inp).result =
      .ok (some (compile_report (some vES) none (some vCA) (some vPA) (some vPO))) ∧
    pyStrOpt none = "None" := by
  have ebody : get_jina_search_results_body inp.jinaOracle 3 5 = ⟨.ok (some pj), 1, []⟩ := by
    show jinaGo inp.jinaOracle 5 0 3 = _
    rw [show (3 : Nat) = 2 + 1 from rfl, jinaGo, hj]
  refine ⟨?_, ?_, rfl⟩ <;>
    simp [main_app, hk, ebody, get_linkedin_company_data, hd,
      get_linkedin_company_posts, hp, process_with_openrouter, hci, hca, eca,
      hpa, epa, hpo, epo, hes, ees]

/-- Witness for amended claim C4: every provider call succeeds except
the company-info completion, which times out; the report's company-info
section is "None" and all other sections carry their analysis text. -/
theorem stage_failure_yields_none_witness :
    (main_app false fullSecrets ciFailInputs).errors = [] ∧
    (main_app false fullSecrets ciFailInputs).result =
      .ok (some (compile_report (some (Json.str "es")) none (some (Json.str "ca"))
        (some (Json.str "pa")) (some (Json.str "po")))) ∧
    pyStrOpt none = "None" :=
  stage_failure_yields_none false fullSecrets ciFailInputs
    ⟨"j", "o", none, "r"⟩ none
    .null .null .null
    (sampleCompletion "ca") (.str "ca") (sampleCompletion "pa") (.str "pa")
    (sampleCompletion "po") (.str "po") (sampleCompletion "es") (.str "es")
    rfl rfl rfl rfl rfl rfl rfl rfl rfl rfl rfl rfl rfl

/-- Claim C6, counterexample: a 200 response whose JSON body lacks the
`choices` structure makes `process_with_openrouter` raise an uncaught
`KeyError` — the Completion adapter DOES raise on a
malformed/unexpected-shape payload. -/
theorem completion_malformed_payload_raises :
    process_with_openrouter (.response 200 (some (Json.obj []))) =
      .error .keyError := rfl

/-- Claim C6 as amended: for every attempt that raises a
`requests.RequestException` — HTTP error status, timeout, connection
error, or a body that is not valid JSON (`requests.JSONDecodeError`,
a `RequestException` subclass since requests 2.27) — the adapters
return the Failure value `None` without raising; but a JSON body that
parses and then lacks the expected `choices`/`message` structure
raises an uncaught exception from the Completion adapter (see the
counterexample). -/
theorem adapters_return_none_on_request_exception (a : HttpAttempt)
    (h : stepOf a = .requestException) :
    process_with_openrouter a = .ok none ∧
    get_linkedin_company_data a = .ok none ∧
    get_linkedin_company_posts a = .ok none := by
  refine ⟨?_, ?_, ?_⟩ <;>
    simp [process_with_openrouter, get_linkedin_company_data,
      get_linkedin_company_posts, h]

/-- Witness for amended claim C6: a 200 response whose body is not
valid JSON — the `JSONDecodeError` is caught and every adapter returns
`None` without raising. -/
theorem adapters_return_none_on_request_exception_witness :
    process_with_openrouter (.response 200 none) =
      (.ok none : Except PyExn (Option Json)) ∧
    get_linkedin_company_data (.response 200 none) = .ok none ∧
    get_linkedin_company_posts (.response 200 none) = .ok none :=
  adapters_return_none_on_request_exception (.response 200 none) rfl

/-- Claim C7: when a required provider API key is absent from the
secrets configuration (`k` being the first missing one, in the dict
literal's evaluation order), `main_app` issues zero network requests,
shows an error naming the missing key, and returns before the pipeline
starts. -/
theorem missing_key_blocks_pipeline (exaA : Bool) (tbl : List (String × String))
    (inp : MainInputs) (k : String)
    (hfirst : (requiredKeys exaA).find? (fun key => (tbl.lookup key).isNone) = some k) :
    (main_app exaA tbl inp).networkCalls = 0 ∧
    (main_app exaA tbl inp).errors = [key_error_msg k] ∧
    (main_app exaA tbl inp).result = .ok none := by
  cases exaA with
  | false =>
    cases hj : tbl.lookup "jina_api_key" with
    | none =>
      simp [requiredKeys, List.find?, hj] at hfirst
      subst hfirst
      simp [main_app, load_api_keys, hj]
    | some vj =>
      cases ho : tbl.lookup "openrouter_api_key" with
      | none =>
        simp [requiredKeys, List.find?, hj, ho] at hfirst
        subst hfirst
        simp [main_app, load_api_keys, hj, ho]
      | some vo =>
        cases hr : tbl.lookup "rapidapi_key" with
        | none =>
          simp [requiredKeys, List.find?, hj, ho, hr] at hfirst
          subst hfirst
          simp [main_app, load_api_keys, hj, ho, hr]
        | some vr =>
          simp [requiredKeys, List.find?, hj, ho, hr] at hfirst
  | true =>
    cases hj : tbl.lookup "jina_api_key" with
    | none =>
      simp [requiredKeys, List.find?, hj] at hfirst
      subst hfirst
      simp [main_app, load_api_keys, hj]
    | some vj =>
      cases ho : tbl.lookup "openrouter_api_key" with
      | none =>
        simp [requiredKeys, List.find?, hj, ho] at hfirst
        subst hfirst
        simp [main_app, load_api_keys, hj, ho]
      | some vo =>
        cases he : tbl.lookup "exa_api_key" with
        | none =>
          simp [requiredKeys, List.find?, hj, ho, he] at hfirst
          subst hfirst
          simp [main_app, load_api_keys, hj, ho, he]
        | some ve =>
          cases hr : tbl.lookup "rapidapi_key" with
          | none =>
            simp [requiredKeys, List.find?, hj, ho, he, hr] at hfirst
            subst hfirst
            simp [main_app, load_api_keys, hj, ho, he, hr]
          | some vr =>
            simp [requiredKeys, List.find?, hj, ho, he, hr] at hfirst

/-- Witness for claim C7: an empty secrets table; the first missing key
is the jina key. -/
theorem missing_key_blocks_pipeline_witness :
    (main_app false [] allTimeoutInputs).networkCalls = 0 ∧
    (main_app false [] allTimeoutInputs).errors = [key_error_msg "jina_api_key"] ∧
    (main_app false [] allTimeoutInputs).result = .ok none :=
  missing_key_blocks_pipeline false [] allTimeoutInputs "jina_api_key" rfl

/-- Claim C8: with the exa library unavailable (`exa_available = False`,
recorded once at import time), a similarity-search call returns the
absent value `None` and issues zero network requests — whatever the
network would have done — and a full pipeline run still compiles the
complete report, with the jina fetch, two LinkedIn fetches and five
completion calls accounting for all 8 network requests (none from
exa). -/
theorem exa_unavailable_short_circuits (a : HttpAttempt)
    (tbl : List (String × String)) (inp : MainInputs) (ks : ApiKeys)
    (km : Option String) (pj pd pp qCI vCI qCA vCA qPA vPA qPO vPO qES vES : Json)
    (hk : load_api_keys false tbl = (some ks, km))
    (hj : stepOf (inp.jinaOracle 0) = .payload pj)
    (hd : stepOf inp.liDataAttempt = .payload pd)
    (hp : stepOf inp.liPostsAttempt = .payload pp)
    (hci : stepOf inp.companyInfoAttempt = .payload qCI)
    (eci : extractContent qCI = .ok vCI)
    (hca : stepOf inp.competitorAttempt = .payload qCA)
    (eca : extractContent qCA = .ok vCA)
    (hpa : stepOf inp.profileAttempt = .payload qPA)
    (epa : extractContent qPA = .ok vPA)
    (hpo : stepOf inp.postsAnalysisAttempt = .payload qPO)
    (epo : extractContent qPO = .ok vPO)
    (hes : stepOf inp.execSummaryAttempt = .payload qES)
    (ees : extractContent qES = .ok vES) :
    get_exa_search_results false a = (none, 0) ∧
    (main_app false tbl inp).networkCalls = 8 ∧
    (main_app false tbl inp).errors = [] ∧
    (main_app false tbl inp).result =
      .ok (some (compile_report (some vES) (some vCI) (some vCA) (some vPA)
        (some vPO))) := by
  have ebody : get_jina_search_results_body inp.jinaOracle 3 5 =
      ⟨.ok (some pj), 1, []⟩ := by
    show jinaGo inp.jinaOracle 5 0 3 = _
    rw [show (3 : Nat) = 2 + 1 from rfl, jinaGo, hj]
  refine ⟨rfl, ?_, ?_, ?_⟩ <;>
    simp [main_app, hk, ebody, get_exa_search_results, get_linkedin_company_data,
      hd, get_linkedin_company_posts, hp, process_with_openrouter, hci, eci,
      hca, eca, hpa, epa, hpo, epo, hes, ees]

/-- Witness for claim C8: full secrets, every non-exa call succeeding,
and an exa attempt that would have succeeded had it been issued. -/
theorem exa_unavailable_short_circuits_witness :
    get_exa_search_results false (.response 200 (some .null)) = (none, 0) ∧
    (main_app false fullSecrets happyInputs).networkCalls = 8 ∧
    (main_app false fullSecrets happyInputs).errors = [] ∧
    (main_app false fullSecrets happyInputs).result =
      .ok (some (compile_report (some (Json.str "es")) (some (Json.str "ci"))
        (some (Json.str "ca")) (some (Json.str "pa")) (some (Json.str "po")))) :=
  exa_unavailable_short_circuits (.response 200 (some .null)) fullSecrets
    happyInputs ⟨"j", "o", none, "r"⟩ none
    .null .null .null
    (sampleCompletion "ci") (.str "ci") (sampleCompletion "ca") (.str "ca")
    (sampleCompletion "pa") (.str "pa") (sampleCompletion "po") (.str "po")
    (sampleCompletion "es") (.str "es")
    rfl rfl rfl rfl rfl rfl rfl rfl rfl rfl rfl rfl rfl rfl

/-- Decoding is a left inverse of the base64 alphabet on sextets. -/
theorem b64Index_b64Char : ∀ n : Nat, n < 64 → b64Index (b64Char n) = some n := by
  decide

/-- No alphabet character is the padding character. -/
theorem b64Char_ne_pad : ∀ n : Nat, n < 64 → b64Char n ≠ '=' := by
  decide

/-- Base64 decoding inverts base64 encoding on every byte sequence. -/
theorem b64decode_b64encode (l : List Nat) (h : ∀ b ∈ l, b < 256) :
    b64decode (b64encode l) = some l := by
  induction l using b64encode.induct with
  | case1 => rfl
  | case2 b1 =>
    have hb1 : b1 < 256 := h b1 (by simp)
    have e1 := b64Index_b64Char (b1 / 4) (by omega)
    have e2 := b64Index_b64Char (b1 % 4 * 16) (by omega)
    simp [b64encode, b64decode, e1, e2]
    omega
  | case3 b1 b2 =>
    have hb1 : b1 < 256 := h b1 (by simp)
    have hb2 : b2 < 256 := h b2 (by simp)
    have e1 := b64Index_b64Char (b1 / 4) (by omega)
    have e2 := b64Index_b64Char (b1 % 4 * 16 + b2 / 16) (by omega)
    have e3 := b64Index_b64Char (b2 % 16 * 4) (by omega)
    have n3 := b64Char_ne_pad (b2 % 16 * 4) (by omega)
    simp [b64encode, b64decode, e1, e2, e3, n3]
    omega
  | case4 b1 b2 b3 rest ih =>
    have hb1 : b1 < 256 := h b1 (by simp)
    have hb2 : b2 < 256 := h b2 (by simp)
    have hb3 : b3 < 256 := h b3 (by simp)
    have hrest : ∀ b ∈ rest, b < 256 := fun b hb => h b (by simp [hb])
    have e1 := b64Index_b64Char (b1 / 4) (by omega)
    have e2 := b64Index_b64Char (b1 % 4 * 16 + b2 / 16) (by omega)
    have e3 := b64Index_b64Char (b2 % 16 * 4 + b3 / 64) (by omega)
    have e4 := b64Index_b64Char (b3 % 64) (by omega)
    have n3 := b64Char_ne_pad (b2 % 16 * 4 + b3 / 64) (by omega)
    have n4 := b64Char_ne_pad (b3 % 64) (by omega)
    simp [b64encode, b64decode, e1, e2, e3, e4, n3, n4, ih hrest]
    omega

/-- Every UTF-8 code unit of a string is a byte. -/
theorem utf8Bytes_lt_256 (s : String) : ∀ b ∈ utf8Bytes s, b < 256 := by
  intro b hb
  simp only [utf8Bytes, List.mem_map] at hb
  obtain ⟨u, _, rfl⟩ := hb
  exact u.toNat_lt

/-- Claim C9: the download link embeds the base64 encoding of the
report's UTF-8 bytes as its data payload, and base64-decoding that
payload yields exactly the UTF-8 encoding of the original report
string — a byte-for-byte round trip. -/
theorem download_link_roundtrip (content filename text : String) :
    get_download_link content filename text =
      "<a href=\"data:file/txt;base64," ++
        String.mk (b64encode (utf8Bytes content)) ++
        "\" download=\"" ++ filename ++ "\">" ++ text ++ "</a>" ∧
    b64decode (b64encode (utf8Bytes content)) = some (utf8Bytes content) :=
  ⟨rfl, b64decode_b64encode _ (utf8Bytes_lt_256 content)⟩

end StreamlitApp
